import Mathlib

/-!
Verification of the line-chart interactive view component
(`line_chart_v2/sub_view/line_chart_interactive_view.ts`).

The component translates mouse / wheel events in pixel coordinates into
view-extent change proposals and tooltip data.  Numbers are embedded as
rationals; the event handlers are embedded as pure functions from a
component state (plus the event) to a new component state together with
the list of events emitted during the handler.
-/

/-- A point in data space, `{x, y}`. -/
structure DataPoint where
  x : ℚ
  y : ℚ
  deriving DecidableEq, Repr

/-- One data series: `{id, points}`. -/
structure DataSeries where
  id : String
  points : List DataPoint
  deriving DecidableEq, Repr

/-- Per-series metadata controlling tooltip inclusion (`visible`, `aux`). -/
structure Metadata where
  visible : Bool
  aux : Bool
  deriving DecidableEq, Repr

/-- An axis-aligned extent in data space: `{x: [min, max], y: [min, max]}`. -/
structure Extent where
  x : ℚ × ℚ
  y : ℚ × ℚ
  deriving DecidableEq, Repr

/-- A rectangle in UI (pixel) coordinates: `{x, width, y, height}`. -/
structure Rect where
  x : ℚ
  width : ℚ
  y : ℚ
  height : ℚ
  deriving DecidableEq, Repr

/-- The dimension of the chart container in pixels. -/
structure Dimension where
  width : ℚ
  height : ℚ
  deriving DecidableEq, Repr

/-- A pluggable scale: forward maps data to pixels, reverse maps pixels to
data, each given the data-space domain and the pixel-space range. -/
structure Scale where
  forward : (ℚ × ℚ) → (ℚ × ℚ) → ℚ → ℚ
  reverse : (ℚ × ℚ) → (ℚ × ℚ) → ℚ → ℚ

/-- One tooltip entry per eligible series (`TooltipDatum`). -/
structure TooltipDatum where
  id : String
  metadata : Option Metadata
  indClosest : Option ℕ
  point : Option DataPoint
  deriving DecidableEq, Repr

/-- The interaction state machine's states. -/
inductive InteractionState where
  | NONE
  | DRAG_ZOOMING
  | SCROLL_ZOOMING
  | PANNING
  deriving DecidableEq, Repr

/-- Fixed scroll-zoom speed factor (source constant `0.01`). -/
def SCROLL_ZOOM_SPEED_FACTOR : ℚ := 1 / 100

/-- Which axis a scale range is requested for. -/
inductive Axis where
  | x
  | y
  deriving DecidableEq, Repr

/-- Modelled from the spec: `getScaleRangeFromDomDim` (imported from
`chart_view_utils`, not among the sources).  The spec says only that the
pixel-space range for an axis is derived from the container's dimension;
it is modelled as `(0, width)` for x and `(height, 0)` for y, matching the
pixel-y-grows-downward convention the spec notes.  No claim depends on the
particular values. -/
def getScaleRangeFromDomDim (domDim : Dimension) : Axis → ℚ × ℚ
  | Axis.x => (0, domDim.width)
  | Axis.y => (domDim.height, 0)

/-- Helper for `findClosestIndex`: walks the remaining points carrying the
current index, the best index so far and its distance; a strictly smaller
distance wins, so on ties the earlier index is kept. -/
def findClosestIndexGo (cursorX : ℚ) : List DataPoint → ℕ → ℕ → ℚ → ℕ
  | [], _, best, _ => best
  | p :: ps, i, best, bestDist =>
    let d := |p.x - cursorX|
    if d < bestDist then findClosestIndexGo cursorX ps (i + 1) i d
    else findClosestIndexGo cursorX ps (i + 1) best bestDist

/-- Modelled from the spec: `findClosestIndex` (imported from
`line_chart_interactive_utils`, not among the sources).  Per the spec it
returns the index of the point whose x is closest to the cursor x,
nearest-by-absolute-distance with first-index-wins on ties, and no index
for an empty point list. -/
def findClosestIndex (points : List DataPoint) (cursorX : ℚ) : Option ℕ :=
  match points with
  | [] => none
  | p :: ps => some (findClosestIndexGo cursorX ps 1 0 |p.x - cursorX|)

/-- A mouse event: offset position, movement delta, shift modifier. -/
structure MouseEvent where
  offsetX : ℚ
  offsetY : ℚ
  movementX : ℚ
  movementY : ℚ
  shiftKey : Bool
  deriving DecidableEq, Repr

/-- A wheel event: modifiers plus the payload the zoom proposal reads. -/
structure WheelEvent where
  ctrlKey : Bool
  shiftKey : Bool
  altKey : Bool
  offsetX : ℚ
  offsetY : ℚ
  deltaX : ℚ
  deltaY : ℚ
  deriving DecidableEq, Repr

/-- The events a handler can emit through the component's outputs. -/
inductive OutEvent where
  | extentChange (extent : Extent)
  | extentReset
  deriving DecidableEq, Repr

/-- The component's inputs and mutable fields.
`proposeViewExtentOnZoom` is modelled from the spec: the helper is imported
from `line_chart_interactive_utils` (not among the sources) and the spec
describes it only as "a zoom-proposal function parameterized by a fixed
scroll-zoom speed factor", so it is carried as an abstract collaborator. -/
structure Component where
  seriesData : List DataSeries
  seriesMetadataMap : String → Option Metadata
  viewExtent : Extent
  xScale : Scale
  yScale : Scale
  domDim : Dimension
  proposeViewExtentOnZoom : WheelEvent → Extent → Dimension → ℚ → Extent
  state : InteractionState
  zoomBoxInUiCoordinate : Rect
  cursorXLocation : Option ℚ
  cursoredData : List TooltipDatum
  tooltipDislayAttached : Bool
  showZoomInstruction : Bool
  dragStartCoord : Option (ℚ × ℚ)
  isCursorInside : Bool

/-- `getDomX`: data x to pixel x through the forward transform. -/
def getDomX (c : Component) (uiCoord : ℚ) : ℚ :=
  c.xScale.forward c.viewExtent.x (getScaleRangeFromDomDim c.domDim Axis.x) uiCoord

/-- `getDataX`: pixel x to data x through the reverse transform. -/
def getDataX (c : Component) (uiCoord : ℚ) : ℚ :=
  c.xScale.reverse c.viewExtent.x (getScaleRangeFromDomDim c.domDim Axis.x) uiCoord

/-- `getDomY`: data y to pixel y through the forward transform. -/
def getDomY (c : Component) (uiCoord : ℚ) : ℚ :=
  c.yScale.forward c.viewExtent.y (getScaleRangeFromDomDim c.domDim Axis.y) uiCoord

/-- `getDataY`: pixel y to data y through the reverse transform. -/
def getDataY (c : Component) (uiCoord : ℚ) : ℚ :=
  c.yScale.reverse c.viewExtent.y (getScaleRangeFromDomDim c.domDim Axis.y) uiCoord

/-- The series-to-tooltip pipeline inside
`updateCursoredDataAndTooltipVisibility`: pair each series with its
metadata, keep series whose metadata exists, is visible and not auxiliary,
build a `TooltipDatum` with the closest index and its point, and keep the
entries whose closest index resolved. -/
def computeCursoredData (seriesMetadataMap : String → Option Metadata)
    (seriesData : List DataSeries) (cursorXLocation : ℚ) : List TooltipDatum :=
  ((((seriesData.map fun seriesData =>
        (seriesData, seriesMetadataMap seriesData.id)).filter fun p =>
          match p.2 with
          | some metadata => metadata.visible && !metadata.aux
          | none => false).map fun p =>
        let index := findClosestIndex p.1.points cursorXLocation
        { id := p.1.id
          indClosest := index
          point := match index with
            | some i => p.1.points.get? i
            | none => none
          metadata := p.2 : TooltipDatum }).filter fun d =>
      d.indClosest.isSome)

/-- `updateCursoredDataAndTooltipVisibility`: no-op when no cursor position
is known; otherwise recompute `cursoredData` and set the tooltip attached
flag to cursor-inside AND non-empty result. -/
def updateCursoredDataAndTooltipVisibility (c : Component) : Component :=
  match c.cursorXLocation with
  | none => c
  | some cursorXLocation =>
    let cursoredData :=
      computeCursoredData c.seriesMetadataMap c.seriesData cursorXLocation
    { c with
      cursoredData := cursoredData
      tooltipDislayAttached := c.isCursorInside && !cursoredData.isEmpty }

/-- `updateTooltip`: resolve the cursor's data-space x from the event, then
recompute the cursored data and tooltip visibility. -/
def updateTooltip (c : Component) (event : MouseEvent) : Component :=
  updateCursoredDataAndTooltipVisibility
    { c with cursorXLocation := some (getDataX c event.offsetX) }

/-- The `dblclick` handler: emit a view-extent reset, force state to NONE.
The Bool is whether the handler called preventDefault. -/
def onDblClick (c : Component) : Component × List OutEvent × Bool :=
  ({ c with state := InteractionState.NONE }, [OutEvent.extentReset], true)

/-- The `mousedown` handler: shift selects PANNING, otherwise DRAG_ZOOMING
with a fresh zero-size zoom box at the pointer; record the drag origin.
The Bool is whether the handler called preventDefault. -/
def onMouseDown (c : Component) (event : MouseEvent) :
    Component × List OutEvent × Bool :=
  let c := { c with
    state := if event.shiftKey then InteractionState.PANNING
      else InteractionState.DRAG_ZOOMING
    dragStartCoord := some (event.offsetX, event.offsetY) }
  let c :=
    if c.state = InteractionState.DRAG_ZOOMING then
      { c with zoomBoxInUiCoordinate :=
        { x := event.offsetX, width := 0, y := event.offsetY, height := 0 } }
    else c
  (c, [], true)

/-- The `mouseup` handler: clear the drag origin; if drag-zooming with a
box of positive width and height, emit the extent the box maps to (pixel y
inverted); force state to NONE when it was not NONE. -/
def onMouseUp (c : Component) : Component × List OutEvent :=
  let c := { c with dragStartCoord := none }
  let zoomBox := c.zoomBoxInUiCoordinate
  let events :=
    if c.state = InteractionState.DRAG_ZOOMING ∧
        0 < zoomBox.width ∧ 0 < zoomBox.height then
      let xMin := getDataX c zoomBox.x
      let xMax := getDataX c (zoomBox.x + zoomBox.width)
      let yMin := getDataY c (zoomBox.y + zoomBox.height)
      let yMax := getDataY c zoomBox.y
      [OutEvent.extentChange { x := (xMin, xMax), y := (yMin, yMax) }]
    else []
  let c :=
    if c.state ≠ InteractionState.NONE then
      { c with state := InteractionState.NONE }
    else c
  (c, events)

/-- The `mouseenter` handler: mark the cursor inside, update the tooltip. -/
def onMouseEnter (c : Component) (event : MouseEvent) : Component :=
  updateTooltip { c with isCursorInside := true } event

/-- The `mouseleave` handler: clear the drag origin, mark the cursor
outside, update the tooltip, force state to NONE. -/
def onMouseLeave (c : Component) (event : MouseEvent) : Component :=
  let c := { c with dragStartCoord := none, isCursorInside := false }
  let c := updateTooltip c event
  { c with state := InteractionState.NONE }

/-- The `mousemove` handler, dispatching on the interaction state:
SCROLL_ZOOMING ends the scroll gesture and updates the tooltip; NONE
updates the tooltip; PANNING emits the extent shifted by the negated
pointer movement; DRAG_ZOOMING recomputes the zoom box as the bounding
rectangle of the drag origin and the pointer. -/
def onMouseMove (c : Component) (event : MouseEvent) :
    Component × List OutEvent :=
  match c.state with
  | InteractionState.SCROLL_ZOOMING =>
    (updateTooltip { c with state := InteractionState.NONE } event, [])
  | InteractionState.NONE => (updateTooltip c event, [])
  | InteractionState.PANNING =>
    let deltaX := -event.movementX
    let deltaY := -event.movementY
    let xMin := getDataX c deltaX
    let xMax := getDataX c (c.domDim.width + deltaX)
    let yMin := getDataY c (c.domDim.height + deltaY)
    let yMax := getDataY c deltaY
    (c, [OutEvent.extentChange { x := (xMin, xMax), y := (yMin, yMax) }])
  | InteractionState.DRAG_ZOOMING =>
    match c.dragStartCoord with
    | none => (c, [])
    | some start =>
      ({ c with zoomBoxInUiCoordinate :=
        { x := min start.1 event.offsetX
          width := max start.1 event.offsetX - min start.1 event.offsetX
          y := min start.2 event.offsetY
          height := max start.2 event.offsetY - min start.2 event.offsetY } },
        [])

/-- The `wheel` handler (synchronous part): the gesture is recognized as
zoom when Alt is held and neither Ctrl nor Shift is; when recognized,
prevent default, emit the zoom proposal's extent and enter SCROLL_ZOOMING;
otherwise show the zoom instruction.  The Bool is whether the handler
called preventDefault. -/
def onWheel (c : Component) (event : WheelEvent) :
    Component × List OutEvent × Bool :=
  let shouldZoom := !event.ctrlKey && !event.shiftKey && event.altKey
  let c := { c with showZoomInstruction := !shouldZoom }
  if shouldZoom then
    let emitted := OutEvent.extentChange
      (c.proposeViewExtentOnZoom event c.viewExtent c.domDim
        SCROLL_ZOOM_SPEED_FACTOR)
    let c :=
      if c.state ≠ InteractionState.SCROLL_ZOOMING then
        { c with state := InteractionState.SCROLL_ZOOMING }
      else c
    (c, [emitted], true)
  else (c, [], false)

/-- `ngOnChanges`: input changes recompute the cursored data. -/
def ngOnChanges (c : Component) : Component :=
  updateCursoredDataAndTooltipVisibility c

/-- Tooltip data as the spec words it: exactly one entry per series whose
metadata exists, is visible and is not marked auxiliary, and whose
closest-index search resolves a non-null index; a series with no
resolvable index contributes no entry of its own and does not suppress
the entries of other series. -/
def cursoredDataSpec (seriesMetadataMap : String → Option Metadata)
    (seriesData : List DataSeries) (cursorXLocation : ℚ) : List TooltipDatum :=
  seriesData.filterMap fun sd =>
    match seriesMetadataMap sd.id with
    | none => none
    | some md =>
      if md.visible && !md.aux then
        (findClosestIndex sd.points cursorXLocation).map fun i =>
          { id := sd.id
            metadata := some md
            indClosest := some i
            point := sd.points.get? i }
      else none

/-- An identity scale, used for concrete instantiations. -/
def idScale : Scale :=
  { forward := fun _ _ u => u, reverse := fun _ _ u => u }

/-- A visible sample series with three points. -/
def sampleSeriesA : DataSeries :=
  { id := "a", points := [⟨0, 0⟩, ⟨4, 1⟩, ⟨8, 2⟩] }

/-- A visible sample series with one point. -/
def sampleSeriesB : DataSeries :=
  { id := "b", points := [⟨1, 5⟩] }

/-- A sample series marked auxiliary in the metadata map. -/
def sampleSeriesC : DataSeries :=
  { id := "c", points := [⟨2, 3⟩] }

/-- A sample series with an empty point list. -/
def sampleSeriesD : DataSeries :=
  { id := "d", points := [] }

/-- Metadata for the sample series: a and b visible, c auxiliary, d
visible but empty. -/
def sampleMetadataMap : String → Option Metadata := fun id =>
  if id = "a" then some { visible := true, aux := false }
  else if id = "b" then some { visible := true, aux := false }
  else if id = "c" then some { visible := true, aux := true }
  else if id = "d" then some { visible := true, aux := false }
  else none

/-- A concrete idle component over the sample data, with identity scales
and a 100x50 pixel container. -/
def sampleComponent : Component :=
  { seriesData := [sampleSeriesA, sampleSeriesB, sampleSeriesC, sampleSeriesD]
    seriesMetadataMap := sampleMetadataMap
    viewExtent := { x := (0, 100), y := (0, 50) }
    xScale := idScale
    yScale := idScale
    domDim := { width := 100, height := 50 }
    proposeViewExtentOnZoom := fun _ extent _ _ => extent
    state := InteractionState.NONE
    zoomBoxInUiCoordinate := { x := 0, width := 0, y := 0, height := 0 }
    cursorXLocation := none
    cursoredData := []
    tooltipDislayAttached := false
    showZoomInstruction := false
    dragStartCoord := none
    isCursorInside := false }

/-- Sample component mid drag-zoom with a 40x30 box at (10, 10). -/
def wDragUp : Component :=
  { sampleComponent with
    state := InteractionState.DRAG_ZOOMING
    zoomBoxInUiCoordinate := { x := 10, width := 40, y := 10, height := 30 } }

/-- Sample component mid drag-zoom with a zero-width box. -/
def wZeroUp : Component :=
  { sampleComponent with
    state := InteractionState.DRAG_ZOOMING
    zoomBoxInUiCoordinate := { x := 10, width := 0, y := 10, height := 30 } }

/-- Sample component in the PANNING state. -/
def wPan : Component :=
  { sampleComponent with state := InteractionState.PANNING }

/-- Sample component mid drag-zoom with drag origin (10, 10). -/
def wDragMove : Component :=
  { sampleComponent with
    state := InteractionState.DRAG_ZOOMING
    dragStartCoord := some (10, 10) }

/-- Sample component with a known cursor position at data x = 0. -/
def wCursor : Component :=
  { sampleComponent with cursorXLocation := some 0 }

/-- Sample component with the cursor inside at data x = 3. -/
def wCursorSome : Component :=
  { sampleComponent with cursorXLocation := some 3, isCursorInside := true }

/-- A mouse event at pixel (5, 7) with no movement. -/
def leaveEvent : MouseEvent :=
  { offsetX := 5, offsetY := 7, movementX := 0, movementY := 0,
    shiftKey := false }

/-- A mouse event at pixel (50, 40) with no movement. -/
def moveEvent : MouseEvent :=
  { offsetX := 50, offsetY := 40, movementX := 0, movementY := 0,
    shiftKey := false }

/-- A mouse event with movement (10, 0). -/
def panEvent : MouseEvent :=
  { offsetX := 20, offsetY := 20, movementX := 10, movementY := 0,
    shiftKey := false }

/-- A wheel event with only Alt held. -/
def zoomWheel : WheelEvent :=
  { ctrlKey := false, shiftKey := false, altKey := true,
    offsetX := 0, offsetY := 0, deltaX := 0, deltaY := 1 }

/-- A wheel event with Ctrl and Alt held. -/
def ctrlAltWheel : WheelEvent :=
  { ctrlKey := true, shiftKey := false, altKey := true,
    offsetX := 0, offsetY := 0, deltaX := 0, deltaY := 1 }

/-- The tooltip datum the sample cursor update produces for series a. -/
def sampleDatumA : TooltipDatum :=
  { id := "a"
    metadata := some { visible := true, aux := false }
    indClosest := some 1
    point := some { x := 4, y := 1 } }

theorem findClosestIndexGo_lt (cursorX : ℚ) (n : ℕ) :
    ∀ (ps : List DataPoint) (i best : ℕ) (d : ℚ),
      i + ps.length ≤ n → best < n →
      findClosestIndexGo cursorX ps i best d < n := by
  intro ps
  induction ps with
  | nil =>
    intro i best d _ hb
    simpa [findClosestIndexGo] using hb
  | cons p tl ih =>
    intro i best d hlen hb
    have hlen' : i + 1 + tl.length ≤ n := by
      simp only [List.length_cons] at hlen
      omega
    have hi : i < n := by
      simp only [List.length_cons] at hlen
      omega
    unfold findClosestIndexGo
    dsimp only
    split
    · exact ih (i + 1) i _ hlen' hi
    · exact ih (i + 1) best _ hlen' hb

theorem findClosestIndex_lt_length (points : List DataPoint) (x : ℚ) (i : ℕ)
    (h : findClosestIndex points x = some i) : i < points.length := by
  cases points with
  | nil => simp [findClosestIndex] at h
  | cons p ps =>
    simp only [findClosestIndex, Option.some.injEq] at h
    subst h
    have := findClosestIndexGo_lt x (ps.length + 1) ps 1 0 |p.x - x|
      (by omega) (by omega)
    simpa using this

theorem computeCursoredData_eq_spec (mm : String → Option Metadata)
    (x : ℚ) (l : List DataSeries) :
    computeCursoredData mm l x = cursoredDataSpec mm l x := by
  induction l with
  | nil => rfl
  | cons sd tl ih =>
    unfold computeCursoredData cursoredDataSpec
    unfold computeCursoredData cursoredDataSpec at ih
    simp only [List.map_cons, List.filter_cons, List.filterMap_cons]
    cases hmd : mm sd.id with
    | none =>
      simpa [hmd] using ih
    | some md =>
      by_cases hvis : md.visible = true
      · by_cases haux : md.aux = true
        · simpa [hmd, hvis, haux] using ih
        · cases hidx : findClosestIndex sd.points x with
          | none => simpa [hmd, hvis, haux, hidx] using ih
          | some i => simpa [hmd, hvis, haux, hidx] using ih
      · simpa [hmd, hvis] using ih

/-- Claim C8: when `cursorXLocation` is unset, tooltip resolution is
skipped entirely — the update performs no recomputation of `cursoredData`
or of the attach flag, leaving the component unchanged. -/
theorem cursorNone_skips_resolution (c : Component)
    (h : c.cursorXLocation = none) :
    updateCursoredDataAndTooltipVisibility c = c := by
  unfold updateCursoredDataAndTooltipVisibility
  rw [h]

/-- Witness for C8 at a concrete component with no cursor position. -/
theorem cursorNone_skips_resolution_check :
    updateCursoredDataAndTooltipVisibility sampleComponent = sampleComponent :=
  cursorNone_skips_resolution sampleComponent rfl

/-- Claim C6: after any mouse-leave event, regardless of the prior
interaction state, the tooltip attached flag is false, the interaction
state is NONE, and the drag origin is cleared. -/
theorem mouseLeave_detaches_and_resets (c : Component) (e : MouseEvent) :
    (onMouseLeave c e).tooltipDislayAttached = false ∧
    (onMouseLeave c e).state = InteractionState.NONE ∧
    (onMouseLeave c e).dragStartCoord = none := by
  simp [onMouseLeave, updateTooltip, updateCursoredDataAndTooltipVisibility]

/-- Claim C9 (amended): on mouse leave, `updateTooltip` runs with the
leave event, so `cursorXLocation` is set to the data-space x resolved from
the leave event's offsetX (it is not retained), and the cursor-inside flag
is cleared. -/
theorem mouseLeave_resolves_new_cursor (c : Component) (e : MouseEvent) :
    (onMouseLeave c e).cursorXLocation = some (getDataX c e.offsetX) ∧
    (onMouseLeave c e).isCursorInside = false := by
  simp [onMouseLeave, updateTooltip, updateCursoredDataAndTooltipVisibility,
    getDataX]

/-- Counterexample to claim C9 as stated: a component whose last cursor
position is data x = 0 receives a mouse-leave at pixel x = 5 (identity
scale); afterwards `cursorXLocation` is `some 5`, not the retained
`some 0`. -/
theorem mouseLeave_retains_cursor_cex :
    wCursor.cursorXLocation = some 0 ∧
    (onMouseLeave wCursor leaveEvent).cursorXLocation = some 5 ∧
    (onMouseLeave wCursor leaveEvent).cursorXLocation ≠
      wCursor.cursorXLocation := by
  refine ⟨rfl, ?_, ?_⟩ <;> decide

/-- Claim C3: for every value v and both axes, the round trip
`toData (toDisplayPixel v) = v`, under the hypothesis that each supplied
scale's reverse transform inverts its forward transform at the component's
own domain and pixel ranges. -/
theorem toData_toDisplayPixel_roundtrip (c : Component)
    (hx : ∀ u, c.xScale.reverse c.viewExtent.x
        (getScaleRangeFromDomDim c.domDim Axis.x)
        (c.xScale.forward c.viewExtent.x
          (getScaleRangeFromDomDim c.domDim Axis.x) u) = u)
    (hy : ∀ u, c.yScale.reverse c.viewExtent.y
        (getScaleRangeFromDomDim c.domDim Axis.y)
        (c.yScale.forward c.viewExtent.y
          (getScaleRangeFromDomDim c.domDim Axis.y) u) = u)
    (v : ℚ) :
    getDataX c (getDomX c v) = v ∧ getDataY c (getDomY c v) = v :=
  ⟨hx v, hy v⟩

/-- Witness for C3 at the concrete identity-scale component and v = 3. -/
theorem toData_toDisplayPixel_roundtrip_check :
    getDataX sampleComponent (getDomX sampleComponent 3) = 3 ∧
    getDataY sampleComponent (getDomY sampleComponent 3) = 3 :=
  toData_toDisplayPixel_roundtrip sampleComponent
    (fun _ => rfl) (fun _ => rfl) 3

/-- Claim C1: on mouse up, the drag origin is cleared and the state ends
NONE in every case; if the state was DRAG_ZOOMING and the zoom box has
strictly positive width and height, exactly one view-extent-change is
emitted with x-extent [toData(box.x), toData(box.x + box.width)] and
y-extent [toDataY(box.y + box.height), toDataY(box.y)] (pixel y
inverted); if the box has zero width or zero height, no event is
emitted. -/
theorem mouseUp_commits_zoomBox (c : Component) :
    (onMouseUp c).1.dragStartCoord = none ∧
    (onMouseUp c).1.state = InteractionState.NONE ∧
    (c.state = InteractionState.DRAG_ZOOMING ∧
        0 < c.zoomBoxInUiCoordinate.width ∧
        0 < c.zoomBoxInUiCoordinate.height →
      (onMouseUp c).2 =
        [OutEvent.extentChange
          { x := (getDataX c c.zoomBoxInUiCoordinate.x,
              getDataX c (c.zoomBoxInUiCoordinate.x +
                c.zoomBoxInUiCoordinate.width))
            y := (getDataY c (c.zoomBoxInUiCoordinate.y +
                c.zoomBoxInUiCoordinate.height),
              getDataY c c.zoomBoxInUiCoordinate.y) }]) ∧
    ((c.zoomBoxInUiCoordinate.width = 0 ∨
        c.zoomBoxInUiCoordinate.height = 0) →
      (onMouseUp c).2 = []) := by
  refine ⟨?_, ?_, ?_, ?_⟩
  · unfold onMouseUp
    dsimp only
    split <;> rfl
  · unfold onMouseUp
    dsimp only
    split
    · rfl
    · next h =>
      simp only [ne_eq, not_not] at h
      exact h
  · rintro ⟨hs, hw, hh⟩
    unfold onMouseUp
    dsimp only
    rw [if_pos ⟨hs, hw, hh⟩]
    rfl
  · intro h
    unfold onMouseUp
    dsimp only
    rw [if_neg]
    rintro ⟨-, hw, hh⟩
    rcases h with h | h
    · rw [show ({ c with dragStartCoord := none } :
        Component).zoomBoxInUiCoordinate = c.zoomBoxInUiCoordinate from rfl,
        h] at hw
      exact lt_irrefl 0 hw
    · rw [show ({ c with dragStartCoord := none } :
        Component).zoomBoxInUiCoordinate = c.zoomBoxInUiCoordinate from rfl,
        h] at hh
      exact lt_irrefl 0 hh

/-- Witness for C1: the positive 40x30 box at (10, 10) commits the extent
x = [10, 50], y = [40, 10] under the identity scales, and a zero-width box
emits nothing. -/
theorem mouseUp_commits_zoomBox_check :
    (onMouseUp wDragUp).1.dragStartCoord = none ∧
    (onMouseUp wDragUp).1.state = InteractionState.NONE ∧
    (onMouseUp wDragUp).2 =
      [OutEvent.extentChange { x := (10, 50), y := (40, 10) }] ∧
    (onMouseUp wZeroUp).2 = [] := by
  refine ⟨(mouseUp_commits_zoomBox wDragUp).1,
    (mouseUp_commits_zoomBox wDragUp).2.1, ?_,
    (mouseUp_commits_zoomBox wZeroUp).2.2.2 (Or.inl rfl)⟩
  have h := (mouseUp_commits_zoomBox wDragUp).2.2.1
    ⟨rfl, by norm_num [wDragUp], by norm_num [wDragUp]⟩
  rw [h]
  norm_num [getDataX, getDataY, wDragUp, sampleComponent, idScale,
    getScaleRangeFromDomDim]

/-- Claim C4: a mouse move while PANNING emits exactly one
view-extent-change with x-extent [toData(-movementX),
toData(domWidth - movementX)] and y-extent [toDataY(domHeight - movementY),
toDataY(-movementY)], and leaves the component (hence the PANNING state)
unchanged. -/
theorem mouseMove_panning_emits (c : Component) (e : MouseEvent)
    (h : c.state = InteractionState.PANNING) :
    onMouseMove c e =
      (c, [OutEvent.extentChange
        { x := (getDataX c (-e.movementX),
            getDataX c (c.domDim.width + -e.movementX))
          y := (getDataY c (c.domDim.height + -e.movementY),
            getDataY c (-e.movementY)) }]) := by
  unfold onMouseMove
  rw [h]

/-- Witness for C4: movement (10, 0) over the 100x50 identity-scale
component shifts the x-extent to [-10, 90] and emits y-extent [50, 0]. -/
theorem mouseMove_panning_emits_check :
    wPan.state = InteractionState.PANNING ∧
    onMouseMove wPan panEvent =
      (wPan, [OutEvent.extentChange { x := (-10, 90), y := (50, 0) }]) := by
  refine ⟨rfl, ?_⟩
  have h := mouseMove_panning_emits wPan panEvent rfl
  rw [h]
  norm_num [getDataX, getDataY, wPan, panEvent, sampleComponent, idScale,
    getScaleRangeFromDomDim]

/-- Claim C7: a mouse move while DRAG_ZOOMING with a recorded drag origin
sets the zoom box to the axis-aligned bounding rectangle of the origin and
the pointer (corner = componentwise min, size = componentwise max − min),
keeps the rest of the component (hence the DRAG_ZOOMING state), and emits
no view-extent-change. -/
theorem mouseMove_dragZooming_box (c : Component) (e : MouseEvent)
    (s : ℚ × ℚ) (h1 : c.state = InteractionState.DRAG_ZOOMING)
    (h2 : c.dragStartCoord = some s) :
    onMouseMove c e =
      ({ c with zoomBoxInUiCoordinate :=
        { x := min s.1 e.offsetX
          width := max s.1 e.offsetX - min s.1 e.offsetX
          y := min s.2 e.offsetY
          height := max s.2 e.offsetY - min s.2 e.offsetY } }, []) := by
  unfold onMouseMove
  rw [h1, h2]

/-- Witness for C7: dragging from origin (10, 10) to pointer (50, 40)
yields the 40x30 box at (10, 10) and no emitted event. -/
theorem mouseMove_dragZooming_box_check :
    onMouseMove wDragMove moveEvent =
      ({ wDragMove with zoomBoxInUiCoordinate :=
        { x := 10, width := 40, y := 10, height := 30 } }, []) := by
  have h := mouseMove_dragZooming_box wDragMove moveEvent (10, 10) rfl rfl
  rw [h]
  norm_num [moveEvent, min_def, max_def]

/-- Claim C2: a wheel gesture is recognized as zoom exactly when Alt is
held and neither Ctrl nor Shift is; when recognized, default is prevented,
exactly one view-extent-change is emitted carrying the zoom proposal at
the fixed speed factor 1/100 (the source constant 0.01), and the state
becomes SCROLL_ZOOMING; when not recognized, no event is emitted, default
is not prevented, and showZoomInstruction becomes true. -/
theorem wheel_zoom_recognition (c : Component) (e : WheelEvent) :
    ((!e.ctrlKey && !e.shiftKey && e.altKey) = true →
      onWheel c e =
        ({ c with
            showZoomInstruction := false
            state := InteractionState.SCROLL_ZOOMING },
          [OutEvent.extentChange (c.proposeViewExtentOnZoom e c.viewExtent
            c.domDim (1 / 100))], true)) ∧
    ((!e.ctrlKey && !e.shiftKey && e.altKey) = false →
      onWheel c e = ({ c with showZoomInstruction := true }, [], false)) := by
  constructor
  · intro h
    unfold onWheel
    rw [h]
    by_cases hs : c.state = InteractionState.SCROLL_ZOOMING
    · rw [if_pos rfl, if_neg (by simpa using hs)]
      rw [← hs]
      rfl
    · rw [if_pos rfl, if_pos (by simpa using hs)]
      rfl
  · intro h
    unfold onWheel
    rw [h]
    rfl

/-- Witness for C2: an Alt-only wheel over the sample component emits one
extent change and enters SCROLL_ZOOMING; a Ctrl+Alt wheel emits nothing
and shows the zoom instruction. -/
theorem wheel_zoom_recognition_check :
    onWheel sampleComponent zoomWheel =
      ({ sampleComponent with
          showZoomInstruction := false
          state := InteractionState.SCROLL_ZOOMING },
        [OutEvent.extentChange (sampleComponent.proposeViewExtentOnZoom
          zoomWheel sampleComponent.viewExtent sampleComponent.domDim
          (1 / 100))], true) ∧
    onWheel sampleComponent ctrlAltWheel =
      ({ sampleComponent with showZoomInstruction := true }, [], false) :=
  ⟨(wheel_zoom_recognition sampleComponent zoomWheel).1 rfl,
    (wheel_zoom_recognition sampleComponent ctrlAltWheel).2 rfl⟩

/-- Claim C5: a cursor update with a known cursor position produces, in
series order, exactly one TooltipDatum per series whose metadata exists,
is visible and is not auxiliary, and whose closest-index search resolves
(series with no resolvable index — e.g. an empty point list — yield no
entry but do not suppress the others), and sets the tooltip attachment
flag to cursor-inside AND result non-empty. -/
theorem cursorUpdate_resolves_tooltip (c : Component) (x : ℚ)
    (h : c.cursorXLocation = some x) :
    (updateCursoredDataAndTooltipVisibility c).cursoredData =
      cursoredDataSpec c.seriesMetadataMap c.seriesData x ∧
    (updateCursoredDataAndTooltipVisibility c).tooltipDislayAttached =
      (c.isCursorInside &&
        !(updateCursoredDataAndTooltipVisibility c).cursoredData.isEmpty) := by
  unfold updateCursoredDataAndTooltipVisibility
  rw [h]
  exact ⟨computeCursoredData_eq_spec _ _ _, rfl⟩

/-- Witness for C5: with the cursor inside at data x = 3 over series a
(visible), b (visible), c (auxiliary) and d (empty), the result holds
entries for a and b only, and the tooltip attaches. -/
theorem cursorUpdate_resolves_tooltip_check :
    (updateCursoredDataAndTooltipVisibility wCursorSome).cursoredData =
      [{ id := "a", metadata := some { visible := true, aux := false },
         indClosest := some 1, point := some { x := 4, y := 1 } },
       { id := "b", metadata := some { visible := true, aux := false },
         indClosest := some 0, point := some { x := 1, y := 5 } }] ∧
    (updateCursoredDataAndTooltipVisibility
      wCursorSome).tooltipDislayAttached = true := by
  have h := cursorUpdate_resolves_tooltip wCursorSome 3 rfl
  have hba : ¬ (("b" : String) = "a") := by decide
  have hca : ¬ (("c" : String) = "a") := by decide
  have hcb : ¬ (("c" : String) = "b") := by decide
  have hda : ¬ (("d" : String) = "a") := by decide
  have hdb : ¬ (("d" : String) = "b") := by decide
  have hdc : ¬ (("d" : String) = "c") := by decide
  have hval : cursoredDataSpec wCursorSome.seriesMetadataMap
      wCursorSome.seriesData 3 =
      [{ id := "a", metadata := some { visible := true, aux := false },
         indClosest := some 1, point := some { x := 4, y := 1 } },
       { id := "b", metadata := some { visible := true, aux := false },
         indClosest := some 0, point := some { x := 1, y := 5 } }] := by
    norm_num [cursoredDataSpec, wCursorSome, sampleComponent,
      sampleMetadataMap, sampleSeriesA, sampleSeriesB, sampleSeriesC,
      sampleSeriesD, findClosestIndex, findClosestIndexGo,
      List.filterMap_cons, List.filterMap_nil, hba, hca, hcb, hda, hdb, hdc]
  refine ⟨h.1.trans hval, ?_⟩
  rw [h.2, h.1, hval]
  rfl

/-- Claim C10: every TooltipDatum exposed by a cursor update has a
resolved (non-null) closest index and a non-null point, and that point is
the element at the closest index of the point list of a series of the
input bearing the datum's id. -/
theorem cursoredData_entries_wellFormed (c : Component) (x : ℚ)
    (h : c.cursorXLocation = some x) (d : TooltipDatum)
    (hd : d ∈ (updateCursoredDataAndTooltipVisibility c).cursoredData) :
    ∃ i pt sd, d.indClosest = some i ∧ d.point = some pt ∧
      sd ∈ c.seriesData ∧ sd.id = d.id ∧ sd.points.get? i = some pt := by
  have hc : (updateCursoredDataAndTooltipVisibility c).cursoredData =
      cursoredDataSpec c.seriesMetadataMap c.seriesData x := by
    unfold updateCursoredDataAndTooltipVisibility
    rw [h]
    exact computeCursoredData_eq_spec _ _ _
  rw [hc] at hd
  unfold cursoredDataSpec at hd
  rw [List.mem_filterMap] at hd
  obtain ⟨sd, hsd, heq⟩ := hd
  cases hmeta : c.seriesMetadataMap sd.id with
  | none =>
    rw [hmeta] at heq
    exact absurd heq (by simp)
  | some md =>
    rw [hmeta] at heq
    dsimp only at heq
    by_cases hv : (md.visible && !md.aux) = true
    · rw [if_pos hv] at heq
      cases hidx : findClosestIndex sd.points x with
      | none =>
        rw [hidx] at heq
        exact absurd heq (by simp)
      | some i =>
        rw [hidx] at heq
        simp only [Option.map_some', Option.some.injEq] at heq
        have hlt := findClosestIndex_lt_length sd.points x i hidx
        have hget : sd.points.get? i = some (sd.points.get ⟨i, hlt⟩) :=
          List.get?_eq_get hlt
        refine ⟨i, sd.points.get ⟨i, hlt⟩, sd, ?_, ?_, hsd, ?_, hget⟩
        · rw [← heq]
        · rw [← heq]
          exact hget
        · rw [← heq]
    · rw [if_neg hv] at heq
      exact absurd heq (by simp)

/-- Witness for C10 at the entry the sample cursor update produces for
series a: its index 1 resolves and its point is element 1 of a's points. -/
theorem cursoredData_entries_wellFormed_check :
    ∃ i pt sd, sampleDatumA.indClosest = some i ∧
      sampleDatumA.point = some pt ∧
      sd ∈ wCursorSome.seriesData ∧ sd.id = sampleDatumA.id ∧
      sd.points.get? i = some pt := by
  apply cursoredData_entries_wellFormed wCursorSome 3 rfl
  have hba : ¬ (("b" : String) = "a") := by decide
  have hca : ¬ (("c" : String) = "a") := by decide
  have hcb : ¬ (("c" : String) = "b") := by decide
  have hda : ¬ (("d" : String) = "a") := by decide
  have hdb : ¬ (("d" : String) = "b") := by decide
  have hdc : ¬ (("d" : String) = "c") := by decide
  norm_num [updateCursoredDataAndTooltipVisibility, computeCursoredData,
    wCursorSome, sampleComponent, sampleMetadataMap, sampleSeriesA,
    sampleSeriesB, sampleSeriesC, sampleSeriesD, findClosestIndex,
    findClosestIndexGo, sampleDatumA, List.filter_cons, List.filter_nil,
    List.map_cons, List.map_nil, hba, hca, hcb, hda, hdb, hdc]
